import Mathlib

/-!
Shallow embedding of `src/main.8.py` (the "Smart Dashboard" application):
the matrix-rain background widget, the analog clock hand geometry, the
stacked-screen navigation, the weather fetch/update logic and the config
loader, together with theorems checking the documented behaviour.

External effects are modelled explicitly:
* randomness (`random.randint`, `random.random`, `random.choice`) is an
  oracle argument (a seed function or a list of pre-drawn decisions);
* the HTTP fetch `requests.get(url).json()` is an argument of type
  `Except Unit Json`: `.error ()` stands for any raised exception
  (network error, unparsable body), `.ok j` for a successfully parsed
  JSON document;
* reading the config file is likewise an `Except Unit Json` argument.
-/

namespace RazziClock

/-- A JSON number as written in the document: a plain decimal literal
`mantissa × 10⁻ˢᶜᵃˡᵉ`. `scale = 0` is an integer literal (parsed by
Python to `int`), `scale > 0` a literal with a decimal point (parsed to
`float`). -/
structure DecNum where
  mantissa : Int
  scale : Nat
deriving DecidableEq, Repr

/-- Numeric value of a decimal literal. -/
def DecNum.toRat (d : DecNum) : ℚ :=
  (d.mantissa : ℚ) / (10 : ℚ) ^ d.scale

/-- JSON values as produced by Python `json.load` / `Response.json()`. -/
inductive Json where
  | null : Json
  | bool : Bool → Json
  | num : DecNum → Json
  | str : String → Json
  | arr : List Json → Json
  | obj : List (String × Json) → Json

/-- Python subscripting `j[k]` on a parsed JSON value: succeeds only when
`j` is an object containing key `k`; every other case raises
(`KeyError` / `TypeError`), modelled as `.error ()`. -/
def getKey (j : Json) (k : String) : Except Unit Json :=
  match j with
  | .obj fields =>
    match fields.lookup k with
    | some v => .ok v
    | none => .error ()
  | _ => .error ()

/-- Drop trailing zeros of the fractional part: `(n, s)` stands for
`n × 10⁻ˢ`; while digits remain after the point and the last one is 0,
remove it. Mirrors that Python float repr is the shortest round-trip
form (`72.50` prints as `72.5`, `72.0` keeps one zero). -/
def stripZeros : Nat → Nat → Nat × Nat
  | n, 0 => (n, 0)
  | n, s + 1 => if n % 10 = 0 then stripZeros (n / 10) s else (n, s + 1)

/-- The fractional digits `fr` printed to exactly `s` places, with
leading zeros (`0.05` has `fr = 5`, `s = 2`, digits `05`). -/
def padDigits (fr s : Nat) : String :=
  let digits := toString fr
  String.mk (List.replicate (s - digits.length) (Char.ofNat 48)) ++ digits

/-- Python `str()` of a parsed JSON number: an integer literal was parsed
to `int` and prints without a point; a literal with a point was parsed to
`float` and prints as its shortest round-trip decimal (the literal with
trailing zeros stripped, keeping at least one fractional digit:
`str(72.5) = "72.5"`, `str(72.0) = "72.0"`, `str(72) = "72"`). -/
def pyNumRepr (d : DecNum) : String :=
  let sign := if d.mantissa < 0 then "-" else ""
  if d.scale = 0 then sign ++ toString d.mantissa.natAbs
  else
    let p := stripZeros d.mantissa.natAbs d.scale
    if p.2 = 0 then sign ++ toString p.1 ++ ".0"
    else sign ++ toString (p.1 / 10 ^ p.2) ++ "." ++ padDigits (p.1 % 10 ^ p.2) p.2

mutual

/-- Python `str()` of a parsed JSON value, as interpolated by the
f-strings in `update_weather`. Containers are rendered recursively
(Python renders their string elements with quotes; no code path under
verification formats a container, only numbers and strings). -/
def pyStr : Json → String
  | .null => "None"
  | .bool b => if b then "True" else "False"
  | .num q => pyNumRepr q
  | .str s => s
  | .arr xs => "[" ++ pyStrList xs ++ "]"
  | .obj fs => "\x7b" ++ pyStrFields fs ++ "\x7d"

/-- Comma-separated rendering of a JSON array body. -/
def pyStrList : List Json → String
  | [] => ""
  | [x] => pyStr x
  | x :: xs => pyStr x ++ ", " ++ pyStrList xs

/-- Comma-separated rendering of a JSON object body. -/
def pyStrFields : List (String × Json) → String
  | [] => ""
  | [(k, v)] => k ++ ": " ++ pyStr v
  | (k, v) :: fs => k ++ ": " ++ pyStr v ++ ", " ++ pyStrFields fs

end

/-! ## MatrixBackground -/

/-- The cell size used by `MatrixBackground.init_columns` (`font_size = 12`). -/
def font_size : Nat := 12

/-- Python `random.randint(a, b)`: inclusive on both ends; the external
randomness is the `seed` oracle, the result always lies in `[a, b]`. -/
def randint (a b : Nat) (seed : Nat) : Nat :=
  a + seed % (b - a + 1)

/-- `MatrixBackground.init_columns`: `width = self.width() or 400` (Python
`or`: a zero width falls back to 400), one column per `width // font_size`,
each started at `random.randint(0, 20)`. -/
def init_columns (width : Nat) (draws : Nat → Nat) : List Int :=
  let w := if width = 0 then 400 else width
  (List.range (w / font_size)).map (fun i => (randint 0 20 (draws i) : Int))

/-- Mutable state of the `MatrixBackground` widget: the `running` flag and
the per-column row cursors. -/
structure MatrixState where
  running : Bool
  columns : List Int
deriving DecidableEq, Repr

/-- One column update inside `MatrixBackground.paintEvent`:
`if col * font_size > height and random.random() > 0.975: col = 0 else: col += 1`.
The draw `random.random() > 0.975` is the Boolean `reset`. -/
def colStep (height : Int) (reset : Bool) (col : Int) : Int :=
  if col * (font_size : Int) > height ∧ reset = true then 0 else col + 1

/-- Iterated column updates: one `colStep` per paint tick, with the
pre-drawn reset decisions listed in order. -/
def colIterate (height : Int) (resets : List Bool) (col : Int) : Int :=
  match resets with
  | [] => col
  | r :: rs => colIterate height rs (colStep height r col)

/-- `MatrixBackground.paintEvent`: returns immediately when not `running`;
otherwise every column takes one `colStep` (the character drawing has no
effect on the state). `resets i` is the reset draw for column `i`. -/
def paintEvent (height : Int) (resets : Nat → Bool) (s : MatrixState) : MatrixState :=
  if !s.running then s
  else { s with columns := s.columns.mapIdx (fun i c => colStep height (resets i) c) }

/-- `MatrixBackground.toggle`: flips `running` (the `update()` call only
schedules a repaint). -/
def toggle (s : MatrixState) : MatrixState :=
  { s with running := !s.running }

/-- `MatrixBackground.resizeEvent`: reinitialises the columns via
`init_columns`; `running` is untouched. -/
def resizeEvent (width : Nat) (draws : Nat → Nat) (s : MatrixState) : MatrixState :=
  { s with columns := init_columns width draws }

/-! ## AnalogClock -/

/-- One wall-clock sample `now = datetime.datetime.now()`, as read once
per `AnalogClock.paintEvent`. -/
structure TimeSample where
  hour : Nat
  minute : Nat
  second : Nat

/-- Hour-hand rotation `30 * ((now.hour % 12) + now.minute / 60)` (degrees). -/
def hourHandAngle (t : TimeSample) : ℚ :=
  30 * (((t.hour % 12 : Nat) : ℚ) + (t.minute : ℚ) / 60)

/-- Minute-hand rotation `6 * (now.minute + now.second / 60)` (degrees). -/
def minuteHandAngle (t : TimeSample) : ℚ :=
  6 * ((t.minute : ℚ) + (t.second : ℚ) / 60)

/-- Second-hand rotation `6 * now.second` (degrees). -/
def secondHandAngle (t : TimeSample) : ℚ :=
  6 * (t.second : ℚ)

/-- The three hand angles painted by `AnalogClock.paintEvent`, all derived
from the single time sample `t` taken in that paint call. -/
def paintHandAngles (t : TimeSample) : ℚ × ℚ × ℚ :=
  (hourHandAngle t, minuteHandAngle t, secondHandAngle t)

/-! ## Screen navigation -/

/-- The three screens added to the `QStackedWidget`, in `addWidget` order. -/
inductive Screen where
  | Main
  | WeatherDetail
  | Calendar
deriving DecidableEq, Repr

/-- The stack contents: index 0 = main, 1 = weather, 2 = calendar. -/
def stackScreens : List Screen :=
  [Screen.Main, Screen.WeatherDetail, Screen.Calendar]

/-- `Dashboard.show_main`: `self.stack.setCurrentIndex(0)`. -/
def show_main (st : Nat) : Nat := 0

/-- `Dashboard.show_weather`: `self.stack.setCurrentIndex(1)`. -/
def show_weather (st : Nat) : Nat := 1

/-- `Dashboard.show_calendar`: `self.stack.setCurrentIndex(2)`. -/
def show_calendar (st : Nat) : Nat := 2

/-- Navigation to a given screen: dispatches to the three `show_*`
handlers. -/
def show_screen : Screen → Nat → Nat
  | Screen.Main, st => show_main st
  | Screen.WeatherDetail, st => show_weather st
  | Screen.Calendar, st => show_calendar st

/-- The currently visible screen: the stack widget at the current index. -/
def current (st : Nat) : Option Screen :=
  stackScreens[st]?

/-! ## Weather fetch and config -/

/-- The two text surfaces fed by the weather code: the summary button
`self.temp_btn` and the detail label `self.weather_info`. -/
structure DisplayState where
  temp_btn : String
  weather_info : String
deriving DecidableEq, Repr

/-- Texts the two surfaces hold when the dashboard is built:
`QPushButton("Loading…")` and `QLabel("Loading…")`. -/
def initDisplay : DisplayState :=
  { temp_btn := "Loading…", weather_info := "Loading…" }

/-- Python truthiness test `not self.api_key` on the stored key:
`None` and the empty string are falsy. -/
def isFalsyKey : Option String → Bool
  | none => true
  | some s => s.isEmpty

/-- The field extraction of `update_weather`:
`temp_f = r["current"]["temp_f"]` and
`condition = r["current"]["condition"]["text"]`; any missing key or
non-object subscript raises, modelled as `.error ()`. -/
def extractWeather (r : Json) : Except Unit (Json × Json) := do
  let cur ← getKey r "current"
  let temp_f ← getKey cur "temp_f"
  let cur2 ← getKey r "current"
  let cond ← getKey cur2 "condition"
  let txt ← getKey cond "text"
  pure (temp_f, txt)

/-- `Dashboard.update_weather`. `resp` is the outcome of
`requests.get(url).json()` (only consulted when a request is issued).
Returns the updated display state together with the number of HTTP
requests issued by this invocation. On a falsy key only the summary
button is touched and no request goes out; otherwise one request is
issued and either both surfaces get the fetched data or — on any raised
exception, caught by the bare `except` — both get the error texts. -/
def update_weather (api_key : Option String) (resp : Except Unit Json)
    (st : DisplayState) : DisplayState × Nat :=
  if isFalsyKey api_key then
    ({ st with temp_btn := "No API" }, 0)
  else
    match resp with
    | .error _ =>
      ({ temp_btn := "Err", weather_info := "Weather load error" }, 1)
    | .ok r =>
      match extractWeather r with
      | .ok (temp_f, cond) =>
        ({ temp_btn := pyStr temp_f ++ "°F",
           weather_info :=
             "Temperature: " ++ pyStr temp_f ++ "°F\nCondition: " ++ pyStr cond }, 1)
      | .error _ =>
        ({ temp_btn := "Err", weather_info := "Weather load error" }, 1)

/-- A sequence of `update_weather` invocations (startup call plus timer
ticks), threading the display state and summing the requests issued. -/
def refreshRuns (api_key : Option String) (resps : List (Except Unit Json))
    (st : DisplayState) : DisplayState × Nat :=
  match resps with
  | [] => (st, 0)
  | r :: rs =>
    let p := update_weather api_key r st
    let q := refreshRuns api_key rs p.1
    (q.1, p.2 + q.2)

/-- `Dashboard.load_weather_key`: reads `Wapi.json`, returns
`(data["api_key"], data["location"])`; the bare `except` converts every
failure (missing/unreadable file, parse error, missing key) into
`(None, None)`. `file` is the outcome of `open` + `json.load`. -/
def load_weather_key (file : Except Unit Json) : Option Json × Option Json :=
  match file with
  | .error _ => (none, none)
  | .ok data =>
    match getKey data "api_key" with
    | .error _ => (none, none)
    | .ok k =>
      match getKey data "location" with
      | .error _ => (none, none)
      | .ok l => (some k, some l)

/-- The well-formed response body
`{"current":{"temp_f":72.5,"condition":{"text":"Sunny"}}}`. -/
def sampleBody : Json :=
  Json.obj [("current", Json.obj
    [("temp_f", Json.num ⟨725, 1⟩),
     ("condition", Json.obj [("text", Json.str "Sunny")])])]

/-! ## Theorems -/

/-- A column step keeps rows non-negative. -/
theorem colStep_nonneg (height : Int) (r : Bool) (c : Int) (h : 0 ≤ c) :
    0 ≤ colStep height r c := by
  unfold colStep
  split <;> omega

/-- Iterated column steps keep rows non-negative. -/
theorem colIterate_nonneg (height : Int) (resets : List Bool) (c : Int) (h : 0 ≤ c) :
    0 ≤ colIterate height resets c := by
  induction resets generalizing c with
  | nil => simpa [colIterate] using h
  | cons r rs ih => exact ih _ (colStep_nonneg height r c h)

/-- C4: a background column starting at row 0 stays non-negative under any
number of ticks, and a single tick either resets the row to 0 — which for
a non-negative row requires the pixel position `row * font_size` to
strictly exceed the visible height and the small-probability draw to have
fired — or increments the row by exactly one. -/
theorem column_tick_invariant (height : Int) (resets : List Bool) (r : Bool) (c : Int) :
    0 ≤ colIterate height resets 0
    ∧ (0 ≤ c → colStep height r c = 0 → c * (font_size : Int) > height ∧ r = true)
    ∧ (colStep height r c = 0 ∨ colStep height r c = c + 1) := by
  refine ⟨colIterate_nonneg height resets 0 le_rfl, ?_, ?_⟩
  · intro hc h0
    unfold colStep at h0
    split at h0
    · next hcond => exact hcond
    · omega
  · unfold colStep
    split
    · exact Or.inl rfl
    · exact Or.inr rfl

/-- Witness for `column_tick_invariant` at height 10, row 1, reset drawn. -/
theorem column_tick_invariant_witness :
    (1 : Int) * (font_size : Int) > 10 ∧ true = true :=
  (column_tick_invariant 10 [true] true 1).2.1 (by decide) (by decide)

/-- C5: toggling the background twice restores the state exactly, a toggle
never touches the column array, and while `running` is false a paint tick
is a no-op on the whole state, so re-enabling resumes from the prior
column state. -/
theorem matrix_toggle_tick (s : MatrixState) (height : Int) (resets : Nat → Bool) :
    toggle (toggle s) = s
    ∧ (toggle s).columns = s.columns
    ∧ (s.running = false → paintEvent height resets s = s) := by
  refine ⟨?_, rfl, ?_⟩
  · cases s
    simp [toggle]
  · intro h
    simp [paintEvent, h]

/-- Witness for `matrix_toggle_tick`: an inactive state is untouched by a tick. -/
theorem matrix_toggle_tick_witness :
    paintEvent 100 (fun _ => true) ⟨false, [3]⟩ = ⟨false, [3]⟩ :=
  (matrix_toggle_tick ⟨false, [3]⟩ 100 (fun _ => true)).2.2 rfl

/-- C2: the painted hand angles are exactly the three formulas over the one
time sample taken in the paint call, and at 03:00:00 they are (90, 0, 0)
degrees. -/
theorem clock_hand_angles (t : TimeSample) :
    paintHandAngles t
      = (30 * (((t.hour % 12 : Nat) : ℚ) + (t.minute : ℚ) / 60),
         6 * ((t.minute : ℚ) + (t.second : ℚ) / 60),
         6 * (t.second : ℚ))
    ∧ paintHandAngles ⟨3, 0, 0⟩ = (90, 0, 0) := by
  refine ⟨rfl, ?_⟩
  simp only [paintHandAngles, hourHandAngle, minuteHandAngle, secondHandAngle]
  norm_num

/-- C6: after `show` of any screen, from any prior stack index, the current
screen is exactly the requested one. -/
theorem show_screen_current (s : Screen) (st : Nat) :
    current (show_screen s st) = some s := by
  cases s <;> rfl

/-- C8 counterexample: a resize to width 0 does not give `0 / font_size = 0`
columns — the Python fallback `self.width() or 400` substitutes 400, so 33
columns are created. -/
theorem init_columns_zero_width_cex :
    (init_columns 0 (fun _ => 0)).length = 33
    ∧ 0 / font_size = 0 ∧ (33 : Nat) ≠ 0 / font_size := by
  exact ⟨by decide, rfl, by decide⟩

/-- C8 (amended): on a resize with nonzero width the column array is
reinitialised with `width / font_size` columns, each starting at a row in
`[0, 20]`. -/
theorem init_columns_resize (width : Nat) (draws : Nat → Nat) (s : MatrixState)
    (h : width ≠ 0) :
    (resizeEvent width draws s).columns = init_columns width draws
    ∧ (init_columns width draws).length = width / font_size
    ∧ ∀ c ∈ init_columns width draws, 0 ≤ c ∧ c ≤ 20 := by
  refine ⟨rfl, ?_, ?_⟩
  · simp [init_columns, h]
  · intro c hc
    simp only [init_columns, List.mem_map, List.mem_range] at hc
    obtain ⟨i, -, rfl⟩ := hc
    have hlt : randint 0 20 (draws i) ≤ 20 := by
      unfold randint
      have := Nat.mod_lt (draws i) (y := 21) (by decide)
      omega
    exact ⟨Int.ofNat_nonneg _, by exact_mod_cast hlt⟩

/-- Witness for `init_columns_resize` at width 24. -/
theorem init_columns_resize_witness :
    (init_columns 24 (fun _ => 5)).length = 24 / font_size
    ∧ ∀ c ∈ init_columns 24 (fun _ => 5), 0 ≤ c ∧ c ≤ 20 :=
  (init_columns_resize 24 (fun _ => 5) ⟨true, []⟩ (by decide)).2

/-- C3: with a falsy API key every refresh returns the same disabled
display (summary button `"No API"`, nothing else touched) and the whole
sequence of refreshes issues zero HTTP requests. -/
theorem update_weather_disabled (api_key : Option String)
    (hk : isFalsyKey api_key = true) :
    (∀ resp st, update_weather api_key resp st = ({ st with temp_btn := "No API" }, 0))
    ∧ ∀ resps st, (refreshRuns api_key resps st).2 = 0
        ∧ (resps ≠ [] → (refreshRuns api_key resps st).1 = { st with temp_btn := "No API" }) := by
  have h1 : ∀ resp st, update_weather api_key resp st = ({ st with temp_btn := "No API" }, 0) := by
    intro resp st
    simp [update_weather, hk]
  have h2 : ∀ resps (st : DisplayState), refreshRuns api_key resps st
      = ((if resps.isEmpty then st else { st with temp_btn := "No API" }), 0) := by
    intro resps
    induction resps with
    | nil => intro st; simp [refreshRuns]
    | cons r rs ih =>
      intro st
      rw [refreshRuns]
      simp only [h1, ih]
      cases rs <;> rfl
  refine ⟨h1, fun resps st => ⟨by rw [h2], fun hne => ?_⟩⟩
  cases resps with
  | nil => exact absurd rfl hne
  | cons r rs =>
    rw [h2]
    rfl

/-- Witness for `update_weather_disabled`: one refresh with no key. -/
theorem update_weather_disabled_witness :
    update_weather none (Except.error ()) initDisplay
      = ({ initDisplay with temp_btn := "No API" }, 0) :=
  (update_weather_disabled none rfl).1 (Except.error ()) initDisplay

/-- C1: with the API key present, any failing refresh — a raised exception
from the request or JSON decode, or a missing expected field — returns
(the model is a total function) with both surfaces wholly in the error
state: summary `"Err"`, detail `"Weather load error"`, no partial mix of
new data and error text. -/
theorem update_weather_failure (api_key : Option String) (resp : Except Unit Json)
    (st : DisplayState) (hk : isFalsyKey api_key = false)
    (hfail : resp = Except.error ()
      ∨ ∃ r, resp = Except.ok r ∧ extractWeather r = Except.error ()) :
    update_weather api_key resp st
      = ({ temp_btn := "Err", weather_info := "Weather load error" }, 1) := by
  rcases hfail with h | ⟨r, hr, hext⟩
  · subst h
    simp [update_weather, hk]
  · subst hr
    simp [update_weather, hk, hext]

/-- Witness for `update_weather_failure`: a body with no `current` field. -/
theorem update_weather_failure_witness :
    update_weather (some "KEY") (Except.ok (Json.obj [])) initDisplay
      = ({ temp_btn := "Err", weather_info := "Weather load error" }, 1) :=
  update_weather_failure (some "KEY") (Except.ok (Json.obj [])) initDisplay
    (by decide) (Or.inr ⟨Json.obj [], rfl, rfl⟩)

/-- C7: on the well-formed body
`{"current":{"temp_f":72.5,"condition":{"text":"Sunny"}}}` the extraction
yields temperature 72.5 and condition `"Sunny"`, the summary button is set
to exactly `"72.5°F"`, and the detail label carries both the temperature
and the condition text. -/
theorem update_weather_success_sample (api_key : Option String) (st : DisplayState)
    (hk : isFalsyKey api_key = false) :
    extractWeather sampleBody = Except.ok (Json.num ⟨725, 1⟩, Json.str "Sunny")
    ∧ DecNum.toRat ⟨725, 1⟩ = (72.5 : ℚ)
    ∧ update_weather api_key (Except.ok sampleBody) st
        = ({ temp_btn := "72.5" ++ "°F",
             weather_info := "Temperature: " ++ "72.5" ++ "°F\nCondition: " ++ "Sunny" }, 1) := by
  refine ⟨rfl, by norm_num [DecNum.toRat], ?_⟩
  simp only [update_weather, hk, Bool.false_eq_true, if_false]
  rfl

/-- Witness for `update_weather_success_sample`. -/
theorem update_weather_success_sample_witness :
    update_weather (some "KEY2") (Except.ok sampleBody) initDisplay
      = ({ temp_btn := "72.5" ++ "°F",
           weather_info := "Temperature: " ++ "72.5" ++ "°F\nCondition: " ++ "Sunny" }, 1) :=
  (update_weather_success_sample (some "KEY2") initDisplay (by decide)).2.2

/-- C9: every failing outcome of the config load — unreadable file or parse
error, or a parsed object without `api_key` or without `location` —
makes `load_weather_key` return the pair `(None, None)` instead of
raising. -/
theorem load_weather_key_failure (file : Except Unit Json)
    (h : file = Except.error ()
      ∨ ∃ d, file = Except.ok d
          ∧ (getKey d "api_key" = Except.error ()
             ∨ getKey d "location" = Except.error ())) :
    load_weather_key file = (none, none) := by
  rcases h with h | ⟨d, hd, hk | hl⟩
  · subst h
    rfl
  · subst hd
    simp [load_weather_key, hk]
  · subst hd
    cases hak : getKey d "api_key" with
    | error e => simp [load_weather_key, hak]
    | ok k => simp [load_weather_key, hak, hl]

/-- Witness for `load_weather_key_failure`: a config object with no keys. -/
theorem load_weather_key_failure_witness :
    load_weather_key (Except.ok (Json.obj [])) = (none, none) :=
  load_weather_key_failure (Except.ok (Json.obj []))
    (Or.inr ⟨Json.obj [], rfl, Or.inl rfl⟩)

/-- C10: with a falsy API key, `update_weather` changes only the summary
button (to `"No API"`): the detail label keeps whatever text it held —
initially `"Loading…"` — and never shows the disabled state. -/
theorem update_weather_no_api_frame (api_key : Option String) (resp : Except Unit Json)
    (st : DisplayState) (hk : isFalsyKey api_key = true) :
    (update_weather api_key resp st).1.weather_info = st.weather_info
    ∧ (update_weather api_key resp st).1.temp_btn = "No API"
    ∧ (update_weather api_key resp initDisplay).1.weather_info = "Loading…" := by
  simp [update_weather, hk, initDisplay]

/-- Witness for `update_weather_no_api_frame`. -/
theorem update_weather_no_api_frame_witness :
    (update_weather none (Except.error ()) initDisplay).1.weather_info
        = initDisplay.weather_info
    ∧ (update_weather none (Except.error ()) initDisplay).1.temp_btn = "No API"
    ∧ (update_weather none (Except.error ()) initDisplay).1.weather_info = "Loading…" :=
  update_weather_no_api_frame none (Except.error ()) initDisplay rfl

end RazziClock
